import Mathlib

/-!
Shallow embedding of the SNMPInterfaceDiscovery Diamond collector
(src/collectors/snmpinterfacediscovery/snmpinterfacediscovery.py).

Modelling choices:
* SNMP transport is a record of responses (`SnmpNet`): the table walk result
  and a map from OID to GET result.  A GET or WALK that raises a transport
  error is `Except.error ()`; in the Python source such an exception
  propagates (there is no try/except around the per-index GETs), which the
  embedding renders as the enclosing function returning `Except.error ()`.
* The instance-level `OIDS` accumulator list is threaded explicitly: each
  builder returns the records it appends, and callers concatenate in the
  source's append order.
* Python dict iteration over the two static OID tables is modelled as list
  iteration in source listing order.
* `re.sub` with the non-word-character class replaces exactly the characters
  outside ASCII `[A-Za-z0-9_]` (the Python 2 default for byte strings, which
  is what pysnmp hands this collector).
* Quote characters are written `Char.ofNat 34` (double quote) and
  `Char.ofNat 39` (single quote).
-/

namespace SnmpInterfaceDiscovery

/-- IF-MIB interface index table OID (source line 78). -/
def IF_MIB_INDEX_OID : String := "1.3.6.1.2.1.2.2.1.1"

/-- IF-MIB interface name OID prefix (source line 79). -/
def IF_MIB_NAME_OID : String := "1.3.6.1.2.1.31.1.1.1.1"

/-- IF-MIB interface type OID prefix (source line 80). -/
def IF_MIB_TYPE_OID : String := "1.3.6.1.2.1.2.2.1.3"

/-- IF-MIB interface status OID prefix (source line 81). -/
def IF_MIB_STATUS_OID : String := "1.3.6.1.2.1.2.2.1.8"

/-- Vendor description OID (source line 84). -/
def VENDOR_DESC_OID : String := "1.3.6.1.2.1.1.1.0"

/-- IOS-XE CPU OID (source line 85). -/
def IOS_XE_CPU_OID : String := "1.3.6.1.4.1.9.9.109.1.1.1.1.7.2"

/-- Legacy Cisco CPU OID (source line 86). -/
def CISCO_LEGACY_CPU_OID : String := "1.3.6.1.4.1.9.9.109.1.1.1.1.7.1"

/-- Generic CPU OID (source line 87). -/
def GENERIC_CPU_OID : String := "1.3.6.1.4.1.1588.2.1.1.1.26.1.0"

/-- Gauge metric-name to OID table (source lines 90-95), in listing order. -/
def IF_MIB_GAUGE_OID_TABLE : List (String × String) :=
  [("ifInDiscards", "1.3.6.1.2.1.2.2.1.13"),
   ("ifInErrors", "1.3.6.1.2.1.2.2.1.14"),
   ("ifOutDiscards", "1.3.6.1.2.1.2.2.1.19"),
   ("ifOutErrors", "1.3.6.1.2.1.2.2.1.20")]

/-- Counter metric-name to OID table (source lines 98-107), in listing order. -/
def IF_MIB_COUNTER_OID_TABLE : List (String × String) :=
  [("ifInOctets", "1.3.6.1.2.1.31.1.1.1.6"),
   ("ifInUcastPkts", "1.3.6.1.2.1.31.1.1.1.7"),
   ("ifInMulticastPkts", "1.3.6.1.2.1.31.1.1.1.8"),
   ("ifInBroadcastPkts", "1.3.6.1.2.1.31.1.1.1.9"),
   ("ifOutOctets", "1.3.6.1.2.1.31.1.1.1.10"),
   ("ifOutUcastPkts", "1.3.6.1.2.1.31.1.1.1.11"),
   ("ifOutMulticastPkts", "1.3.6.1.2.1.31.1.1.1.12"),
   ("ifOutBroadcastPkts", "1.3.6.1.2.1.31.1.1.1.13")]

/-- Accepted interface types (source line 110). -/
def IF_TYPES : List String := ["6", "135", "131"]

/-- Accepted interface statuses (source line 111). -/
def IF_STATUS : List String := ["1"]

/-- The double-quote character. -/
def quoteChar : Char := Char.ofNat 34

/-- The single-quote character. -/
def apostChar : Char := Char.ofNat 39

/-- Quote removal on the raw interface name (source line 170): every double
or single quote is deleted, all other characters are kept in order. -/
def strip_quotes (s : String) : String :=
  ⟨s.data.filter (fun c => !(c = quoteChar || c = apostChar))⟩

/-- Replacement applied to a single character by the non-word-character
substitution: word characters (ASCII letters, digits, underscore) are kept,
anything else becomes an underscore. -/
def word_sub (c : Char) : Char :=
  if c.isAlphanum || c == '_' then c else '_'

/-- Non-word-character replacement used by both record builders (source
lines 181 and 202): every character outside ASCII letters, digits and the
underscore becomes an underscore. -/
def sanitize (s : String) : String :=
  ⟨s.data.map word_sub⟩

/-- One serialized catalog record, mirroring the Python format string
`K,host,community,oid,metricPath` (source lines 189, 223, 240, 253, 265). -/
def oid_desc (kind host community oid metricPath : String) : String :=
  kind ++ "," ++ host ++ "," ++ community ++ "," ++ oid ++ "," ++ metricPath

/-- Python substring containment `host in item`. -/
def hostIn (host item : String) : Bool :=
  decide (host.data <:+: item.data)

/-- Embedding of `parse_oid_file` (source lines 131-145).  The file contents
are `none` when the catalog file is missing or unreadable (the IOError
branch), otherwise `some` of its lines.  Every line containing the host
token is dropped, the rest are kept in order. -/
def parse_oid_file (fileLines : Option (List String)) (host : String) : List String :=
  let curOids := fileLines.getD []
  curOids.filter (fun item => !(hostIn host item))

/-- Embedding of `make_gauge_desc` (source lines 176-194): one record per
gauge-table entry, in table order. -/
def make_gauge_desc (path device host community ifName ifIndex : String) : List String :=
  IF_MIB_GAUGE_OID_TABLE.map (fun e =>
    let ifGaugeOid := e.2 ++ "." ++ ifIndex
    let metricIfDescr := sanitize ifName
    let metricName := metricIfDescr ++ "." ++ e.1
    let metricPath := "devices." ++ device ++ "." ++ path ++ "." ++ metricName
    oid_desc "G" host community ifGaugeOid metricPath)

/-- Embedding of `make_counter_desc` (source lines 196-228).  The fold state
carries the records appended so far together with the current value of the
Python variable `metricPath`, which is only reassigned (inside the unit loop
for the two high-capacity octet names, after it for all other names) and is
read after the branch; `none` models the variable being still unbound, in
which case reading it raises (NameError), modelled as `Except.error ()`.
The record append sits outside the unit loop, exactly as in the source. -/
def make_counter_desc (byte_unit : List String)
    (path device host community ifName ifIndex : String) :
    Except Unit (List String) := do
  let res ← IF_MIB_COUNTER_OID_TABLE.foldlM
    (fun (acc : List String × Option String) e => do
      let ifCounterOid := e.2 ++ "." ++ ifIndex
      let metricIfDescr := sanitize ifName
      let mp? : Option String :=
        if e.1 ∈ (["ifHCInOctets", "ifHCOutOctets"] : List String) then
          byte_unit.foldl
            (fun _mp unit =>
              some ("devices." ++ device ++ "." ++ path ++ "." ++
                    (metricIfDescr ++ "." ++ (e.1.replace "Octets" unit))))
            acc.2
        else
          some ("devices." ++ device ++ "." ++ path ++ "." ++
                (metricIfDescr ++ "." ++ e.1))
      match mp? with
      | none => Except.error ()
      | some mp =>
          Except.ok (acc.1 ++ [oid_desc "C" host community ifCounterOid mp], some mp))
    (([], none) : List String × Option String)
  return res.1

/-- SNMP transport state: the walk over the index table and the GET
responses, each either a value or a transport error. -/
structure SnmpNet where
  walkResult : Except Unit (List String)
  getOid : String → Except Unit String

/-- Loop body of `get_interface_indexes` (source lines 154-175) for a single
interface index: GET type and status, reject unless both are accepted,
GET and unquote the name, then build counter records only for type 135 and
gauge plus counter records otherwise.  Returns the records this index
appends to `OIDS`. -/
def process_interface (net : SnmpNet) (byte_unit : List String)
    (path device host community ifIndex : String) : Except Unit (List String) := do
  let ifTypeOid := IF_MIB_TYPE_OID ++ "." ++ ifIndex
  let ifType ← net.getOid ifTypeOid
  let ifStatusOid := IF_MIB_STATUS_OID ++ "." ++ ifIndex
  let ifStatus ← net.getOid ifStatusOid
  if ifType ∉ IF_TYPES ∨ ifStatus ∉ IF_STATUS then
    return []
  else
    let ifNameOid := IF_MIB_NAME_OID ++ "." ++ ifIndex
    let ifNameRaw ← net.getOid ifNameOid
    let ifName := strip_quotes ifNameRaw
    if ifType = "135" then
      make_counter_desc byte_unit path device host community ifName ifIndex
    else do
      let cs ← make_counter_desc byte_unit path device host community ifName ifIndex
      return make_gauge_desc path device host community ifName ifIndex ++ cs

/-- Embedding of `get_interface_indexes` (source lines 147-175): walk the
index table, then process each returned index in walk order, concatenating
the records each index appends.  An exception anywhere propagates. -/
def get_interface_indexes (net : SnmpNet) (byte_unit : List String)
    (path device host community : String) : Except Unit (List String) := do
  let ifIndexes ← net.walkResult
  ifIndexes.foldlM
    (fun acc ifIndex => do
      let recs ← process_interface net byte_unit path device host community ifIndex
      return acc ++ recs)
    ([] : List String)

/-- Vendor classification part of `get_environment_oid` (source lines
234-270), taking the already-fetched vendor description string: the IOS-XE
hex signature wins, then the Cisco hex signature, else the generic CPU OID;
exactly one record is appended in every case. -/
def get_environment_oid (device host community vendorHexString : String) : List String :=
  if "494f532d5845".data <:+: vendorHexString.data then
    [oid_desc "G" host community IOS_XE_CPU_OID
      ("devices." ++ device ++ ".cpu.1min_average_percent")]
  else if "436973636f".data <:+: vendorHexString.data then
    [oid_desc "G" host community CISCO_LEGACY_CPU_OID
      ("devices." ++ device ++ ".cpu.1min_average_percent")]
  else
    [oid_desc "G" host community GENERIC_CPU_OID
      ("devices." ++ device ++ ".cpu.current_percent")]

/-- Embedding of `collect_snmp` (source lines 272-282): `OIDS` starts as the
purged catalog, the interface records and the single CPU record are
appended, and the resulting line list is what gets written back to the
catalog file (one record per line). -/
def collect_snmp (net : SnmpNet) (byte_unit : List String)
    (path device host community : String) (oidFileLines : Option (List String)) :
    Except Unit (List String) := do
  let oids0 := parse_oid_file oidFileLines host
  let ifRecs ← get_interface_indexes net byte_unit path device host community
  let vendor ← net.getOid VENDOR_DESC_OID
  return oids0 ++ ifRecs ++ get_environment_oid device host community vendor

/-- Test network with a single interface: its index is returned by the walk,
and the three per-index GETs answer with the given type, status and raw name;
every other GET fails with a transport error. -/
def ifaceNet (ifIndex t s n : String) : SnmpNet :=
  ⟨Except.ok [ifIndex], fun oid =>
    if oid = IF_MIB_TYPE_OID ++ "." ++ ifIndex then Except.ok t
    else if oid = IF_MIB_STATUS_OID ++ "." ++ ifIndex then Except.ok s
    else if oid = IF_MIB_NAME_OID ++ "." ++ ifIndex then Except.ok n
    else Except.error ()⟩

/-- Test network whose walk returns indexes 1 and 2: every GET about index 1
fails with a transport error, while index 2 is healthy (type 6, status 1,
name eth0).  The vendor GET also fails. -/
def exNet2 : SnmpNet :=
  ⟨Except.ok ["1", "2"], fun oid =>
    if oid = IF_MIB_TYPE_OID ++ "." ++ "2" then Except.ok "6"
    else if oid = IF_MIB_STATUS_OID ++ "." ++ "2" then Except.ok "1"
    else if oid = IF_MIB_NAME_OID ++ "." ++ "2" then Except.ok "eth0"
    else Except.error ()⟩

/-- Same GET behaviour as `exNet2`, but the walk returns only the healthy
index 2. -/
def exNet2b : SnmpNet :=
  ⟨Except.ok ["2"], exNet2.getOid⟩

/-- Test network with no interfaces and an empty vendor description. -/
def emptyNet : SnmpNet :=
  ⟨Except.ok [], fun oid =>
    if oid = VENDOR_DESC_OID then Except.ok "" else Except.error ()⟩

/-- Test network for the rejection claim: index 7 has type 24 (loopback) and
status 1, and even the name GET fails, showing the name is never fetched for
a rejected interface. -/
def exNet5 : SnmpNet :=
  ⟨Except.ok ["7"], fun oid =>
    if oid = IF_MIB_TYPE_OID ++ "." ++ "7" then Except.ok "24"
    else if oid = IF_MIB_STATUS_OID ++ "." ++ "7" then Except.ok "1"
    else Except.error ()⟩

/-- Raw interface name `Gi0/1` wrapped in double quotes, as an SNMP agent
may return it. -/
def rawQuotedName : String :=
  ⟨[quoteChar, 'G', 'i', '0', '/', '1', quoteChar]⟩

lemma except_ok_bind {α β : Type} (a : α) (k : α → Except Unit β) :
    (Except.ok a >>= k : Except Unit β) = k a := rfl

lemma except_error_bind {α β : Type} (k : α → Except Unit β) :
    ((Except.error () : Except Unit α) >>= k) = Except.error () := rfl

lemma string_data_append (a b : String) : (a ++ b).data = a.data ++ b.data := by
  cases a; cases b; rfl

lemma host_inside_oid_desc (k host c o m : String) :
    host.data <:+: (oid_desc k host c o m).data := by
  refine ⟨(k ++ ",").data, ("," ++ c ++ "," ++ o ++ "," ++ m).data, ?_⟩
  simp [oid_desc, string_data_append, List.append_assoc]

lemma make_counter_desc_eq (byte_unit : List String)
    (path device host community ifName ifIndex : String) :
    make_counter_desc byte_unit path device host community ifName ifIndex =
      Except.ok (IF_MIB_COUNTER_OID_TABLE.map (fun e =>
        oid_desc "C" host community (e.2 ++ "." ++ ifIndex)
          ("devices." ++ device ++ "." ++ path ++ "." ++
            (sanitize ifName ++ "." ++ e.1)))) := rfl

lemma word_sub_word (c : Char) :
    ((word_sub c).isAlphanum || word_sub c == '_') = true := by
  cases h : (c.isAlphanum || c == '_') <;> simp [word_sub, h]

lemma word_sub_idem (c : Char) : word_sub (word_sub c) = word_sub c := by
  cases h : (c.isAlphanum || c == '_') <;> simp [word_sub, h]

/-- Claim C1: the source never relabels the octet counters.  At a concrete
accepted interface (name `Gi0/1`, index 5) with the default unit-label list
`[bit, byte]`, `make_counter_desc` emits exactly one record per counter-table
entry, the octet records keeping the metric names `ifInOctets` and
`ifOutOctets` unchanged; moreover the output does not depend on the
configured unit-label list at all, so no per-unit-label duplication ever
happens.  This contradicts the claim that one record per configured unit
label is emitted with the `Octets` suffix replaced: the relabel branch
compares against the names `ifHCInOctets` and `ifHCOutOctets`, which do not
occur in the counter table. -/
theorem c1_octets_never_relabeled :
    make_counter_desc ["bit", "byte"] "interface" "router1" "router1.example.com"
        "public" "Gi0/1" "5" =
      Except.ok
        ["C,router1.example.com,public,1.3.6.1.2.1.31.1.1.1.6.5,devices.router1.interface.Gi0_1.ifInOctets",
         "C,router1.example.com,public,1.3.6.1.2.1.31.1.1.1.7.5,devices.router1.interface.Gi0_1.ifInUcastPkts",
         "C,router1.example.com,public,1.3.6.1.2.1.31.1.1.1.8.5,devices.router1.interface.Gi0_1.ifInMulticastPkts",
         "C,router1.example.com,public,1.3.6.1.2.1.31.1.1.1.9.5,devices.router1.interface.Gi0_1.ifInBroadcastPkts",
         "C,router1.example.com,public,1.3.6.1.2.1.31.1.1.1.10.5,devices.router1.interface.Gi0_1.ifOutOctets",
         "C,router1.example.com,public,1.3.6.1.2.1.31.1.1.1.11.5,devices.router1.interface.Gi0_1.ifOutUcastPkts",
         "C,router1.example.com,public,1.3.6.1.2.1.31.1.1.1.12.5,devices.router1.interface.Gi0_1.ifOutMulticastPkts",
         "C,router1.example.com,public,1.3.6.1.2.1.31.1.1.1.13.5,devices.router1.interface.Gi0_1.ifOutBroadcastPkts"] ∧
    ∀ byte_unit : List String,
      make_counter_desc byte_unit "interface" "router1" "router1.example.com"
          "public" "Gi0/1" "5" =
        make_counter_desc ["bit", "byte"] "interface" "router1"
          "router1.example.com" "public" "Gi0/1" "5" :=
  ⟨rfl, fun _ => rfl⟩

/-- Claim C7: interface-name sanitization is total and idempotent — for every
input string every character of the result is an ASCII letter, digit or
underscore, sanitizing twice equals sanitizing once, and `Gi0/1` sanitizes to
`Gi0_1`. -/
theorem c7_sanitize_total_idempotent (s : String) :
    ((sanitize s).data.all (fun c => c.isAlphanum || c == '_')) = true ∧
    sanitize (sanitize s) = sanitize s ∧
    sanitize "Gi0/1" = "Gi0_1" := by
  refine ⟨?_, ?_, rfl⟩
  · rw [List.all_eq_true]
    intro c hc
    simp only [sanitize] at hc
    obtain ⟨a, _, rfl⟩ := List.mem_map.mp hc
    exact word_sub_word a
  · show (⟨(s.data.map word_sub).map word_sub⟩ : String) = ⟨s.data.map word_sub⟩
    rw [List.map_map]
    congr 1
    apply List.map_congr_left
    intro a _
    exact word_sub_idem a

/-- Claim C9: a missing or unreadable catalog file is read as the empty line
sequence, and the discovery run behaves exactly as if the catalog file had
existed with empty contents. -/
theorem c9_missing_catalog_is_empty (host : String) :
    parse_oid_file none host = [] ∧
    ∀ (net : SnmpNet) (byte_unit : List String) (path device community : String),
      collect_snmp net byte_unit path device host community none =
        collect_snmp net byte_unit path device host community (some []) :=
  ⟨rfl, fun _ _ _ _ _ => rfl⟩

/-- Claim C10: double and single quotes are deleted from the raw interface
name before the non-word-to-underscore substitution, so the quoted raw name
`Gi0/1` yields the metric segment `Gi0_1` (whereas sanitizing the raw string
directly would give `_Gi0_1_`), and the full per-interface pipeline emits
paths with the `Gi0_1` segment. -/
theorem c10_quotes_deleted_before_sanitize :
    sanitize (strip_quotes rawQuotedName) = "Gi0_1" ∧
    sanitize rawQuotedName = "_Gi0_1_" ∧
    process_interface (ifaceNet "5" "135" "1" rawQuotedName) ["bit", "byte"]
        "interface" "router1" "h" "p" "5" =
      Except.ok
        ["C,h,p,1.3.6.1.2.1.31.1.1.1.6.5,devices.router1.interface.Gi0_1.ifInOctets",
         "C,h,p,1.3.6.1.2.1.31.1.1.1.7.5,devices.router1.interface.Gi0_1.ifInUcastPkts",
         "C,h,p,1.3.6.1.2.1.31.1.1.1.8.5,devices.router1.interface.Gi0_1.ifInMulticastPkts",
         "C,h,p,1.3.6.1.2.1.31.1.1.1.9.5,devices.router1.interface.Gi0_1.ifInBroadcastPkts",
         "C,h,p,1.3.6.1.2.1.31.1.1.1.10.5,devices.router1.interface.Gi0_1.ifOutOctets",
         "C,h,p,1.3.6.1.2.1.31.1.1.1.11.5,devices.router1.interface.Gi0_1.ifOutUcastPkts",
         "C,h,p,1.3.6.1.2.1.31.1.1.1.12.5,devices.router1.interface.Gi0_1.ifOutMulticastPkts",
         "C,h,p,1.3.6.1.2.1.31.1.1.1.13.5,devices.router1.interface.Gi0_1.ifOutBroadcastPkts"] :=
  ⟨rfl, rfl, rfl⟩

/-- Claim C6: an accepted interface of type 135 produces only counter
records — at a concrete type-135 interface the emitted records are exactly
the eight counter records (all with the `C` kind letter, no gauge record),
and the output is independent of the configured octets unit-label list, so
the count stays at 8 even for unit lists with more than one entry.  The
claimed expansion beyond the 8 base entries therefore never happens. -/
theorem c6_type135_counter_records_only :
    process_interface (ifaceNet "9" "135" "1" "Vlan100") ["bit", "byte"]
        "interface" "d" "h" "p" "9" =
      Except.ok
        ["C,h,p,1.3.6.1.2.1.31.1.1.1.6.9,devices.d.interface.Vlan100.ifInOctets",
         "C,h,p,1.3.6.1.2.1.31.1.1.1.7.9,devices.d.interface.Vlan100.ifInUcastPkts",
         "C,h,p,1.3.6.1.2.1.31.1.1.1.8.9,devices.d.interface.Vlan100.ifInMulticastPkts",
         "C,h,p,1.3.6.1.2.1.31.1.1.1.9.9,devices.d.interface.Vlan100.ifInBroadcastPkts",
         "C,h,p,1.3.6.1.2.1.31.1.1.1.10.9,devices.d.interface.Vlan100.ifOutOctets",
         "C,h,p,1.3.6.1.2.1.31.1.1.1.11.9,devices.d.interface.Vlan100.ifOutUcastPkts",
         "C,h,p,1.3.6.1.2.1.31.1.1.1.12.9,devices.d.interface.Vlan100.ifOutMulticastPkts",
         "C,h,p,1.3.6.1.2.1.31.1.1.1.13.9,devices.d.interface.Vlan100.ifOutBroadcastPkts"] ∧
    ∀ byte_unit : List String,
      process_interface (ifaceNet "9" "135" "1" "Vlan100") byte_unit
          "interface" "d" "h" "p" "9" =
        process_interface (ifaceNet "9" "135" "1" "Vlan100") ["bit", "byte"]
          "interface" "d" "h" "p" "9" :=
  ⟨rfl, fun _ => rfl⟩

/-- Claim C4: vendor classification is total and yields exactly one CPU
record — the IOS-XE hex signature wins and gives the IOS-XE CPU OID with
metric name `cpu.1min_average_percent`, otherwise the Cisco hex signature
gives the legacy CPU OID with the same metric name, otherwise the generic
CPU OID with metric name `cpu.current_percent`. -/
theorem c4_vendor_classification (device host community s : String) :
    (get_environment_oid device host community s).length = 1 ∧
    ("494f532d5845".data <:+: s.data →
      get_environment_oid device host community s =
        [oid_desc "G" host community IOS_XE_CPU_OID
          ("devices." ++ device ++ ".cpu.1min_average_percent")]) ∧
    (¬ ("494f532d5845".data <:+: s.data) → "436973636f".data <:+: s.data →
      get_environment_oid device host community s =
        [oid_desc "G" host community CISCO_LEGACY_CPU_OID
          ("devices." ++ device ++ ".cpu.1min_average_percent")]) ∧
    (¬ ("494f532d5845".data <:+: s.data) → ¬ ("436973636f".data <:+: s.data) →
      get_environment_oid device host community s =
        [oid_desc "G" host community GENERIC_CPU_OID
          ("devices." ++ device ++ ".cpu.current_percent")]) := by
  by_cases h1 : "494f532d5845".data <:+: s.data
  · exact ⟨by simp [get_environment_oid, h1], fun _ => by simp [get_environment_oid, h1],
      fun h1' _ => absurd h1 h1', fun h1' _ => absurd h1 h1'⟩
  · by_cases h2 : "436973636f".data <:+: s.data
    · exact ⟨by simp [get_environment_oid, h1, h2], fun h1' => absurd h1' h1,
        fun _ _ => by simp [get_environment_oid, h1, h2], fun _ h2' => absurd h2 h2'⟩
    · exact ⟨by simp [get_environment_oid, h1, h2], fun h1' => absurd h1' h1,
        fun _ h2' => absurd h2' h2, fun _ _ => by simp [get_environment_oid, h1, h2]⟩

/-- Claim C4 witness: the vendor string hex-decoding to `Cisco IOS Software`
contains the Cisco signature but not the IOS-XE signature, so it is
classified as the legacy Cisco CPU variant. -/
theorem c4_vendor_classification_witness :
    get_environment_oid "d" "h" "p" "436973636f20494f5320536f667477617265" =
      [oid_desc "G" "h" "p" CISCO_LEGACY_CPU_OID "devices.d.cpu.1min_average_percent"] :=
  (c4_vendor_classification "d" "h" "p" "436973636f20494f5320536f667477617265").2.2.1
    (by decide) (by decide)

/-- Claim C5: an interface whose type is not among 6, 135, 131 or whose
status is not 1 is skipped before the name GET — it contributes no catalog
record, whatever the name GET would return (even a transport error). -/
theorem c5_rejected_interface_emits_nothing (net : SnmpNet) (byte_unit : List String)
    (path device host community ifIndex t s : String)
    (ht : net.getOid (IF_MIB_TYPE_OID ++ "." ++ ifIndex) = Except.ok t)
    (hs : net.getOid (IF_MIB_STATUS_OID ++ "." ++ ifIndex) = Except.ok s)
    (hrej : t ∉ IF_TYPES ∨ s ∉ IF_STATUS) :
    process_interface net byte_unit path device host community ifIndex = Except.ok [] := by
  unfold process_interface
  dsimp only
  rw [ht, except_ok_bind, hs, except_ok_bind, if_pos hrej]
  rfl

/-- Claim C5 witness: a loopback interface (type 24, status 1) whose name GET
would fail is rejected with zero records. -/
theorem c5_rejected_interface_emits_nothing_witness :
    process_interface exNet5 ["bit", "byte"] "interface" "d" "h" "p" "7" = Except.ok [] :=
  c5_rejected_interface_emits_nothing exNet5 ["bit", "byte"] "interface" "d" "h" "p" "7"
    "24" "1" rfl rfl (Or.inl (by decide))

lemma except_pure_bind {α β : Type} (a : α) (k : α → Except Unit β) :
    ((pure a : Except Unit α) >>= k) = k a := rfl

lemma foldl_interface_error (net : SnmpNet) (byte_unit : List String)
    (path device host community : String) :
    ∀ (l : List String) (i : String), i ∈ l →
      process_interface net byte_unit path device host community i = Except.error () →
      ∀ acc : List String,
        l.foldlM (fun acc ifIndex => do
            let recs ← process_interface net byte_unit path device host community ifIndex
            return acc ++ recs) acc = Except.error () := by
  intro l
  induction l with
  | nil => intro i hi; cases hi
  | cons x xs ih =>
    intro i hi herr acc
    rcases List.mem_cons.mp hi with rfl | hmem
    · simp [List.foldlM, herr, except_error_bind]
    · cases hp : process_interface net byte_unit path device host community x with
      | error e =>
        cases e
        simp [List.foldlM, hp, except_error_bind]
      | ok rs =>
        simp only [List.foldlM, hp, except_ok_bind, except_pure_bind]
        exact ih i hmem herr (acc ++ rs)

/-- Claim C2 counterexample: on a device whose walk returns indexes 1 and 2,
where every GET about index 1 fails with a transport error and index 2 is a
healthy accepted interface, the enumeration returns a device-level failure
and yields none of index 2's records — whereas the same device with only
index 2 present yields twelve records.  This refutes the claim that a
per-index GET failure aborts only that index while enumeration continues. -/
theorem c2_counterexample_per_index_failure :
    get_interface_indexes exNet2 ["bit", "byte"] "interface" "d" "h" "p" =
      Except.error () ∧
    get_interface_indexes exNet2b ["bit", "byte"] "interface" "d" "h" "p" =
      Except.ok
        ["G,h,p,1.3.6.1.2.1.2.2.1.13.2,devices.d.interface.eth0.ifInDiscards",
         "G,h,p,1.3.6.1.2.1.2.2.1.14.2,devices.d.interface.eth0.ifInErrors",
         "G,h,p,1.3.6.1.2.1.2.2.1.19.2,devices.d.interface.eth0.ifOutDiscards",
         "G,h,p,1.3.6.1.2.1.2.2.1.20.2,devices.d.interface.eth0.ifOutErrors",
         "C,h,p,1.3.6.1.2.1.31.1.1.1.6.2,devices.d.interface.eth0.ifInOctets",
         "C,h,p,1.3.6.1.2.1.31.1.1.1.7.2,devices.d.interface.eth0.ifInUcastPkts",
         "C,h,p,1.3.6.1.2.1.31.1.1.1.8.2,devices.d.interface.eth0.ifInMulticastPkts",
         "C,h,p,1.3.6.1.2.1.31.1.1.1.9.2,devices.d.interface.eth0.ifInBroadcastPkts",
         "C,h,p,1.3.6.1.2.1.31.1.1.1.10.2,devices.d.interface.eth0.ifOutOctets",
         "C,h,p,1.3.6.1.2.1.31.1.1.1.11.2,devices.d.interface.eth0.ifOutUcastPkts",
         "C,h,p,1.3.6.1.2.1.31.1.1.1.12.2,devices.d.interface.eth0.ifOutMulticastPkts",
         "C,h,p,1.3.6.1.2.1.31.1.1.1.13.2,devices.d.interface.eth0.ifOutBroadcastPkts"] :=
  ⟨rfl, rfl⟩

/-- Claim C2 as amended: a transport error on any per-index GET is not
absorbed — if the processing of any index returned by the walk fails, the
whole device enumeration fails, yielding no records for any index. -/
theorem c2_per_index_failure_aborts_device (net : SnmpNet) (byte_unit : List String)
    (path device host community : String) (idxs : List String)
    (hw : net.walkResult = Except.ok idxs) (i : String) (hi : i ∈ idxs)
    (herr : process_interface net byte_unit path device host community i =
      Except.error ()) :
    get_interface_indexes net byte_unit path device host community =
      Except.error () := by
  unfold get_interface_indexes
  rw [hw, except_ok_bind]
  exact foldl_interface_error net byte_unit path device host community idxs i hi herr []

/-- Claim C2 witness: the amended abort behaviour at the concrete two-index
device whose index 1 type GET fails. -/
theorem c2_per_index_failure_aborts_device_witness :
    get_interface_indexes exNet2 ["bit", "byte"] "interface" "dev" "host" "comm" =
      Except.error () :=
  c2_per_index_failure_aborts_device exNet2 ["bit", "byte"] "interface" "dev" "host"
    "comm" ["1", "2"] rfl "1" (List.mem_cons_self "1" ["2"]) rfl

/-- Claim C3: a successful discovery-and-persist run for one host writes
back exactly the old lines not containing that host's token — unchanged, in
their original relative order (the kept lines form a sublist of the old
catalog) — followed by the freshly built records appended at the end. -/
theorem c3_host_scoped_merge (net : SnmpNet) (byte_unit : List String)
    (path device community : String) (old : List String) (host : String)
    (recs : List String)
    (h : collect_snmp net byte_unit path device host community (some old) =
      Except.ok recs) :
    (∃ newRecs, recs = old.filter (fun item => !(hostIn host item)) ++ newRecs) ∧
    (old.filter (fun item => !(hostIn host item))).Sublist old ∧
    (∀ item ∈ old, hostIn host item = false → item ∈ recs) := by
  unfold collect_snmp at h
  dsimp only at h
  cases hif : get_interface_indexes net byte_unit path device host community with
  | error e => rw [hif, except_error_bind] at h; exact Except.noConfusion h
  | ok ifRecs =>
    rw [hif, except_ok_bind] at h
    cases hv : net.getOid VENDOR_DESC_OID with
    | error e => rw [hv, except_error_bind] at h; exact Except.noConfusion h
    | ok vendor =>
      rw [hv, except_ok_bind] at h
      injection h with h'
      subst h'
      refine ⟨⟨ifRecs ++ get_environment_oid device host community vendor,
        by simp [parse_oid_file, List.append_assoc]⟩, List.filter_sublist _, ?_⟩
      intro item hm hf
      refine List.mem_append_left _ (List.mem_append_left _ ?_)
      show item ∈ parse_oid_file (some old) host
      exact List.mem_filter.mpr ⟨hm, by simp [hf]⟩

/-- Claim C3 witness: merging at a concrete catalog holding one line for
another host and one stale line for the host under discovery. -/
theorem c3_host_scoped_merge_witness :
    (∃ newRecs,
      (["G,b1,x,y,z",
        "G,myhost,p,1.3.6.1.4.1.1588.2.1.1.1.26.1.0,devices.d.cpu.current_percent"] :
          List String) =
        (["G,b1,x,y,z", "C,myhost,p,o,m"] : List String).filter
          (fun item => !(hostIn "myhost" item)) ++ newRecs) ∧
    ((["G,b1,x,y,z", "C,myhost,p,o,m"] : List String).filter
      (fun item => !(hostIn "myhost" item))).Sublist
        ["G,b1,x,y,z", "C,myhost,p,o,m"] ∧
    (∀ item ∈ (["G,b1,x,y,z", "C,myhost,p,o,m"] : List String),
      hostIn "myhost" item = false →
      item ∈ (["G,b1,x,y,z",
        "G,myhost,p,1.3.6.1.4.1.1588.2.1.1.1.26.1.0,devices.d.cpu.current_percent"] :
          List String)) :=
  c3_host_scoped_merge emptyNet ["bit", "byte"] "interface" "d" "p"
    ["G,b1,x,y,z", "C,myhost,p,o,m"] "myhost"
    ["G,b1,x,y,z",
     "G,myhost,p,1.3.6.1.4.1.1588.2.1.1.1.26.1.0,devices.d.cpu.current_percent"]
    rfl

lemma mem_make_gauge_host (path device host community ifName ifIndex r : String)
    (hr : r ∈ make_gauge_desc path device host community ifName ifIndex) :
    host.data <:+: r.data := by
  unfold make_gauge_desc at hr
  obtain ⟨e, _, rfl⟩ := List.mem_map.mp hr
  exact host_inside_oid_desc _ _ _ _ _

lemma mem_make_counter_host (byte_unit : List String)
    (path device host community ifName ifIndex r : String) (recs : List String)
    (h : make_counter_desc byte_unit path device host community ifName ifIndex =
      Except.ok recs) (hr : r ∈ recs) : host.data <:+: r.data := by
  rw [make_counter_desc_eq] at h
  injection h with h'
  subst h'
  obtain ⟨e, _, rfl⟩ := List.mem_map.mp hr
  exact host_inside_oid_desc _ _ _ _ _

lemma process_interface_host (net : SnmpNet) (byte_unit : List String)
    (path device host community i : String) (recs : List String)
    (h : process_interface net byte_unit path device host community i =
      Except.ok recs) :
    ∀ r ∈ recs, host.data <:+: r.data := by
  unfold process_interface at h
  dsimp only at h
  cases hT : net.getOid (IF_MIB_TYPE_OID ++ "." ++ i) with
  | error e => rw [hT, except_error_bind] at h; exact Except.noConfusion h
  | ok t =>
    rw [hT, except_ok_bind] at h
    cases hS : net.getOid (IF_MIB_STATUS_OID ++ "." ++ i) with
    | error e => rw [hS, except_error_bind] at h; exact Except.noConfusion h
    | ok s =>
      rw [hS, except_ok_bind] at h
      by_cases hrej : t ∉ IF_TYPES ∨ s ∉ IF_STATUS
      · rw [if_pos hrej] at h
        injection h with h'
        subst h'
        intro r hr
        cases hr
      · rw [if_neg hrej] at h
        cases hN : net.getOid (IF_MIB_NAME_OID ++ "." ++ i) with
        | error e => rw [hN, except_error_bind] at h; exact Except.noConfusion h
        | ok nm =>
          rw [hN, except_ok_bind] at h
          by_cases h135 : t = "135"
          · rw [if_pos h135] at h
            intro r hr
            exact mem_make_counter_host byte_unit path device host community
              (strip_quotes nm) i r recs h hr
          · rw [if_neg h135, make_counter_desc_eq, except_ok_bind] at h
            injection h with h'
            subst h'
            intro r hr
            rcases List.mem_append.mp hr with hg | hc
            · exact mem_make_gauge_host path device host community
                (strip_quotes nm) i r hg
            · obtain ⟨e, _, rfl⟩ := List.mem_map.mp hc
              exact host_inside_oid_desc _ _ _ _ _

lemma foldl_interface_host (net : SnmpNet) (byte_unit : List String)
    (path device host community : String) :
    ∀ (l : List String) (acc recs : List String),
      (∀ r ∈ acc, host.data <:+: r.data) →
      l.foldlM (fun acc ifIndex => do
          let rs ← process_interface net byte_unit path device host community ifIndex
          return acc ++ rs) acc = Except.ok recs →
      ∀ r ∈ recs, host.data <:+: r.data := by
  intro l
  induction l with
  | nil =>
    intro acc recs hacc h
    simp only [List.foldlM] at h
    injection h with h'
    subst h'
    exact hacc
  | cons x xs ih =>
    intro acc recs hacc h
    cases hp : process_interface net byte_unit path device host community x with
    | error e =>
      cases e
      simp only [List.foldlM, hp, except_error_bind] at h
      exact Except.noConfusion h
    | ok rs =>
      simp only [List.foldlM, hp, except_ok_bind, except_pure_bind] at h
      refine ih (acc ++ rs) recs ?_ h
      intro r hr
      rcases List.mem_append.mp hr with ha | hb
      · exact hacc r ha
      · exact process_interface_host net byte_unit path device host community x rs hp r hb

lemma get_interface_indexes_host (net : SnmpNet) (byte_unit : List String)
    (path device host community : String) (recs : List String)
    (h : get_interface_indexes net byte_unit path device host community =
      Except.ok recs) :
    ∀ r ∈ recs, host.data <:+: r.data := by
  unfold get_interface_indexes at h
  cases hw : net.walkResult with
  | error e => rw [hw, except_error_bind] at h; exact Except.noConfusion h
  | ok idxs =>
    rw [hw, except_ok_bind] at h
    exact foldl_interface_host net byte_unit path device host community idxs [] recs
      (by intro r hr; cases hr) h

lemma env_record_host (device host community v r : String)
    (hr : r ∈ get_environment_oid device host community v) :
    host.data <:+: r.data := by
  unfold get_environment_oid at hr
  by_cases h1 : "494f532d5845".data <:+: v.data
  · rw [if_pos h1] at hr
    obtain rfl := List.mem_singleton.mp hr
    exact host_inside_oid_desc _ _ _ _ _
  · rw [if_neg h1] at hr
    by_cases h2 : "436973636f".data <:+: v.data
    · rw [if_pos h2] at hr
      obtain rfl := List.mem_singleton.mp hr
      exact host_inside_oid_desc _ _ _ _ _
    · rw [if_neg h2] at hr
      obtain rfl := List.mem_singleton.mp hr
      exact host_inside_oid_desc _ _ _ _ _

/-- Claim C8: with the device's SNMP answers and the configuration unchanged,
running discovery-and-persist a second time yields the same host subset of
catalog lines as the first run (in fact the whole catalog is unchanged,
because every freshly built record contains the host token and the purge
step removes exactly those lines). -/
theorem c8_rerun_host_subset_unchanged (net : SnmpNet) (byte_unit : List String)
    (path device host community : String) (old : Option (List String))
    (recs1 recs2 : List String)
    (h1 : collect_snmp net byte_unit path device host community old = Except.ok recs1)
    (h2 : collect_snmp net byte_unit path device host community (some recs1) =
      Except.ok recs2) :
    recs2.filter (fun item => hostIn host item) =
      recs1.filter (fun item => hostIn host item) := by
  suffices hr : recs2 = recs1 by rw [hr]
  unfold collect_snmp at h1 h2
  dsimp only at h1 h2
  cases hif : get_interface_indexes net byte_unit path device host community with
  | error e => rw [hif, except_error_bind] at h1; exact Except.noConfusion h1
  | ok ifRecs =>
    rw [hif, except_ok_bind] at h1 h2
    cases hv : net.getOid VENDOR_DESC_OID with
    | error e => rw [hv, except_error_bind] at h1; exact Except.noConfusion h1
    | ok vendor =>
      rw [hv, except_ok_bind] at h1 h2
      injection h1 with h1'
      injection h2 with h2'
      subst h1'
      subst h2'
      have hifh : ∀ r ∈ ifRecs, hostIn host r = true := fun r hr =>
        decide_eq_true
          (get_interface_indexes_host net byte_unit path device host community
            ifRecs hif r hr)
      have henvh : ∀ r ∈ get_environment_oid device host community vendor,
          hostIn host r = true := fun r hr =>
        decide_eq_true (env_record_host device host community vendor r hr)
      simp only [parse_oid_file, Option.getD, List.filter_append, List.filter_filter]
      have hif0 : ifRecs.filter (fun item => !(hostIn host item)) = [] := by
        rw [List.filter_eq_nil_iff]
        intro a ha
        simp [hifh a ha]
      have henv0 : (get_environment_oid device host community vendor).filter
          (fun item => !(hostIn host item)) = [] := by
        rw [List.filter_eq_nil_iff]
        intro a ha
        simp [henvh a ha]
      rw [hif0, henv0]
      simp [Bool.and_self]

/-- Claim C8 witness: rerunning discovery at a concrete device (no
interfaces, generic CPU fallback) against a catalog with one foreign line and
one stale host line yields the same host subset both times. -/
theorem c8_rerun_host_subset_unchanged_witness :
    (["G,b1,x,y,z",
      "G,myhost,p,1.3.6.1.4.1.1588.2.1.1.1.26.1.0,devices.d.cpu.current_percent"] :
        List String).filter (fun item => hostIn "myhost" item) =
      (["G,b1,x,y,z",
        "G,myhost,p,1.3.6.1.4.1.1588.2.1.1.1.26.1.0,devices.d.cpu.current_percent"] :
          List String).filter (fun item => hostIn "myhost" item) :=
  c8_rerun_host_subset_unchanged emptyNet ["bit", "byte"] "interface" "d" "myhost" "p"
    (some ["G,b1,x,y,z", "C,myhost,p,o,m"])
    ["G,b1,x,y,z",
     "G,myhost,p,1.3.6.1.4.1.1588.2.1.1.1.26.1.0,devices.d.cpu.current_percent"]
    ["G,b1,x,y,z",
     "G,myhost,p,1.3.6.1.4.1.1588.2.1.1.1.26.1.0,devices.d.cpu.current_percent"]
    rfl rfl

end SnmpInterfaceDiscovery
